import Mathlib

/-
Verification of the basis/integral engine of a screened-Poisson reconstruction
code base, and of its randomized-sampling dataset harness.

The embedding follows the two source files:
  * torch_spsr/bases/bezier_tensor.py  (class BezierTensorBasis)
  * dataset/base.py                    (class RandomSafeDataset)

Modelling conventions:
  * Floating point tensors are modelled by exact rationals (batch entries are
    independent, so a single query stands for one batch element).
  * torch.Tensor.round rounds half to even; this is modelled by roundHalfEven.
  * Python / torch integer indexing wraps indices in [-len, 0) to the end of the
    sequence and raises IndexError outside [-len, len); pyGet models this.
  * torch's clamp_(0, n-1) is min (max i 0) (n-1); clampIdx models this.
  * int(math.log2 m) on a positive integer m is floor (log2 m), i.e. Nat.log2.
  * The 8 integral tables are loaded from a pickle that is not part of the
    sources, so they are kept abstract: an IntegralTables record of
    lists-of-lists of rationals, a parameter of every integral operation.
  * Fallible torch operations are modelled in Except String; an assertion
    failure and an indexing failure produce distinct error strings.
-/

/-- A batch element of an N x 3 tensor: one 3-vector. -/
structure Vec3 (K : Type) where
  x : K
  y : K
  z : K
deriving DecidableEq, Repr

/-- Round half to even (the convention of torch.Tensor.round), composed with
the cast to int64 that follows it in the source. -/
def roundHalfEven (q : ℚ) : ℤ :=
  let n := Int.floor q
  let r := q - (n : ℚ)
  if r < 1 / 2 then n
  else if 1 / 2 < r then n + 1
  else if n % 2 = 0 then n else n + 1

/-- Python / torch sequence indexing: a nonnegative index reads directly, an
index in [-len, 0) wraps to the end, anything else is an IndexError (none). -/
def pyGet {α : Type} (l : List α) (i : ℤ) : Option α :=
  if 0 ≤ i then l.get? i.toNat
  else if -(l.length : ℤ) ≤ i then l.get? (i + l.length).toNat
  else none

/-- The index a successful Python lookup actually reads: the raw index when
nonnegative, otherwise the index counted from the end of the sequence. -/
def pyWrapIdx (n : ℕ) (i : ℤ) : ℕ :=
  if 0 ≤ i then i.toNat else (i + n).toNat

/-- torch clamp_(min 0, max (n-1)): min (max i 0) (n - 1). -/
def clampIdx (i : ℤ) (n : ℕ) : ℤ :=
  min (max i 0) ((n : ℤ) - 1)

/-- One of the 8 precomputed integral tables: rows of 1D arrays, outer-indexed
by scale level. -/
abbrev Table := List (List ℚ)

/-- The 8 named arrays-of-arrays unpickled by _initialize_constants, kept
abstract because the pickle is data, not source. -/
structure IntegralTables where
  PARTIAL_INTEGRAL : Table
  DERIVATIVE_PARTIAL_INTEGRAL : Table
  INV_PARTIAL_INTEGRAL : Table
  INV_DERIVATIVE_PARTIAL_INTEGRAL : Table
  SHIFTED_SELF_INTEGRAL : Table
  SHIFTED_DERIVATIVE_INTEGRAL : Table
  SHIFTED_SELF_DERIV_INTEGRAL : Table
  INV_SHIFTED_SELF_DERIV_INTEGRAL : Table

namespace BezierTensorBasis

/-- evaluate_single: the quadratic B-spline kernel, three half-open pieces,
written as the mask arithmetic m1*b1 + m2*b2 + m3*b3 of the source. -/
def evaluate_single {K : Type} [LinearOrderedField K] (x : K) : K :=
  (if -(3 / 2) ≤ x ∧ x < -(1 / 2) then (x + 3 / 2) ^ 2 else 0)
    + (if -(1 / 2) ≤ x ∧ x < 1 / 2 then -2 * x ^ 2 + 3 / 2 else 0)
    + (if 1 / 2 ≤ x ∧ x < 3 / 2 then (x - 3 / 2) ^ 2 else 0)

/-- evaluate_derivative_single: the piecewise-linear companion of
evaluate_single, same masks, values 2x+3, -4x, 2x-3. -/
def evaluate_derivative_single {K : Type} [LinearOrderedField K] (x : K) : K :=
  (if -(3 / 2) ≤ x ∧ x < -(1 / 2) then 2 * x + 3 else 0)
    + (if -(1 / 2) ≤ x ∧ x < 1 / 2 then -4 * x else 0)
    + (if 1 / 2 ≤ x ∧ x < 3 / 2 then 2 * x - 3 else 0)

/-- evaluate: the separable product of the per-axis kernels.  The feat and
feat_ids arguments of the source are unused there and omitted here. -/
def evaluate {K : Type} [LinearOrderedField K] (xyz : Vec3 K) : K :=
  evaluate_single xyz.x * evaluate_single xyz.y * evaluate_single xyz.z

/-- evaluate_derivative: gradient of the separable kernel, each axis derivative
divided by the stride (the source divides the per-axis derivative by stride
before forming the products). -/
def evaluate_derivative {K : Type} [LinearOrderedField K] (xyz : Vec3 K)
    (stride : ℤ) : Vec3 K :=
  let bx := evaluate_single xyz.x
  let bY := evaluate_single xyz.y
  let bz := evaluate_single xyz.z
  let dx := evaluate_derivative_single xyz.x / (stride : K)
  let dy := evaluate_derivative_single xyz.y / (stride : K)
  let dz := evaluate_derivative_single xyz.z / (stride : K)
  ⟨dx * bY * bz, bx * dy * bz, bx * bY * dz⟩

end BezierTensorBasis

section KernelLemmas

open BezierTensorBasis

variable {K : Type} [LinearOrderedField K]

lemma evaluate_single_piece1 {x : K} (h1 : -(3 / 2) ≤ x) (h2 : x < -(1 / 2)) :
    evaluate_single x = (x + 3 / 2) ^ 2 := by
  unfold evaluate_single
  rw [if_pos ⟨h1, h2⟩, if_neg, if_neg] <;>
    first
      | (rintro ⟨h3, h4⟩; linarith)
      | ring

lemma evaluate_single_piece2 {x : K} (h1 : -(1 / 2) ≤ x) (h2 : x < 1 / 2) :
    evaluate_single x = -2 * x ^ 2 + 3 / 2 := by
  unfold evaluate_single
  rw [if_neg, if_pos ⟨h1, h2⟩, if_neg] <;>
    first
      | (rintro ⟨h3, h4⟩; linarith)
      | ring

lemma evaluate_single_piece3 {x : K} (h1 : 1 / 2 ≤ x) (h2 : x < 3 / 2) :
    evaluate_single x = (x - 3 / 2) ^ 2 := by
  unfold evaluate_single
  rw [if_neg, if_neg, if_pos ⟨h1, h2⟩] <;>
    first
      | (rintro ⟨h3, h4⟩; linarith)
      | ring

lemma evaluate_single_left {x : K} (h : x < -(3 / 2)) :
    evaluate_single x = 0 := by
  unfold evaluate_single
  rw [if_neg, if_neg, if_neg] <;>
    first
      | (rintro ⟨h3, h4⟩; linarith)
      | norm_num

lemma evaluate_single_right {x : K} (h : 3 / 2 ≤ x) :
    evaluate_single x = 0 := by
  unfold evaluate_single
  rw [if_neg, if_neg, if_neg] <;>
    first
      | (rintro ⟨h3, h4⟩; linarith)
      | norm_num

lemma evaluate_derivative_single_piece1 {x : K} (h1 : -(3 / 2) ≤ x)
    (h2 : x < -(1 / 2)) : evaluate_derivative_single x = 2 * x + 3 := by
  unfold evaluate_derivative_single
  rw [if_pos ⟨h1, h2⟩, if_neg, if_neg] <;>
    first
      | (rintro ⟨h3, h4⟩; linarith)
      | ring

lemma evaluate_derivative_single_piece2 {x : K} (h1 : -(1 / 2) ≤ x)
    (h2 : x < 1 / 2) : evaluate_derivative_single x = -4 * x := by
  unfold evaluate_derivative_single
  rw [if_neg, if_pos ⟨h1, h2⟩, if_neg] <;>
    first
      | (rintro ⟨h3, h4⟩; linarith)
      | ring

lemma evaluate_derivative_single_piece3 {x : K} (h1 : 1 / 2 ≤ x)
    (h2 : x < 3 / 2) : evaluate_derivative_single x = 2 * x - 3 := by
  unfold evaluate_derivative_single
  rw [if_neg, if_neg, if_pos ⟨h1, h2⟩] <;>
    first
      | (rintro ⟨h3, h4⟩; linarith)
      | ring

end KernelLemmas

/-- Claim C4: evaluate_single is the piecewise quadratic (x+1.5)^2 on
[-1.5,-0.5), -2x^2+1.5 on [-0.5,0.5), (x-1.5)^2 on [0.5,1.5) and 0 otherwise,
each piece owning its left endpoint and excluding its right; in particular it
vanishes whenever 1.5 ≤ |x|. -/
theorem evaluate_single_piecewise (x : ℝ) :
    BezierTensorBasis.evaluate_single x =
      (if -(3 / 2) ≤ x ∧ x < -(1 / 2) then (x + 3 / 2) ^ 2
       else if -(1 / 2) ≤ x ∧ x < 1 / 2 then -2 * x ^ 2 + 3 / 2
       else if 1 / 2 ≤ x ∧ x < 3 / 2 then (x - 3 / 2) ^ 2
       else 0)
      ∧ (3 / 2 ≤ |x| → BezierTensorBasis.evaluate_single x = 0) := by
  constructor
  · rcases lt_or_le x (-(3 / 2)) with h | h1
    · rw [evaluate_single_left h, if_neg, if_neg, if_neg] <;>
        (rintro ⟨h3, h4⟩; linarith)
    · rcases lt_or_le x (-(1 / 2)) with h2 | h2
      · rw [evaluate_single_piece1 h1 h2, if_pos ⟨h1, h2⟩]
      · rcases lt_or_le x (1 / 2) with h3 | h3
        · rw [evaluate_single_piece2 h2 h3, if_neg, if_pos ⟨h2, h3⟩]
          rintro ⟨h4, h5⟩; linarith
        · rcases lt_or_le x (3 / 2) with h4 | h4
          · rw [evaluate_single_piece3 h3 h4, if_neg, if_neg,
              if_pos ⟨h3, h4⟩] <;> (rintro ⟨h5, h6⟩; linarith)
          · rw [evaluate_single_right h4, if_neg, if_neg, if_neg] <;>
              (rintro ⟨h5, h6⟩; linarith)
  · intro h
    rcases abs_cases x with ⟨hx, _⟩ | ⟨hx, _⟩
    · exact evaluate_single_right (by linarith)
    · rcases lt_or_eq_of_le (show x ≤ -(3 / 2) by linarith) with h2 | h2
      · exact evaluate_single_left h2
      · rw [evaluate_single_piece1 (le_of_eq h2.symm) (by linarith), h2]
        norm_num

/-- Witness for C4 at x = 2 (outside the support). -/
theorem evaluate_single_piecewise_witness :
    BezierTensorBasis.evaluate_single (2 : ℝ) = 0 :=
  (evaluate_single_piecewise 2).2 (by rw [abs_of_nonneg] <;> norm_num)

section DerivLemmas

lemma hasDerivAt_kernel_poly1 (x : ℝ) :
    HasDerivAt (fun y : ℝ => (y + 3 / 2) ^ 2) (2 * x + 3) x := by
  have h1 : HasDerivAt (fun y : ℝ => y + 3 / 2) 1 x := (hasDerivAt_id' x).add_const _
  have h2 := h1.pow 2
  convert h2 using 1
  ring

lemma hasDerivAt_kernel_poly2 (x : ℝ) :
    HasDerivAt (fun y : ℝ => -2 * y ^ 2 + 3 / 2) (-4 * x) x := by
  have h2 := ((hasDerivAt_pow 2 x).const_mul (-2 : ℝ)).add_const (3 / 2)
  convert h2 using 1
  ring

lemma hasDerivAt_kernel_poly3 (x : ℝ) :
    HasDerivAt (fun y : ℝ => (y - 3 / 2) ^ 2) (2 * x - 3) x := by
  have h1 : HasDerivAt (fun y : ℝ => y - 3 / 2) 1 x := (hasDerivAt_id' x).sub_const _
  have h2 := h1.pow 2
  convert h2 using 1
  ring

lemma hasDerivAt_evaluate_single1 {x : ℝ}
    (hx : x ∈ Set.Ioo (-(3 / 2) : ℝ) (-(1 / 2))) :
    HasDerivAt BezierTensorBasis.evaluate_single (2 * x + 3) x := by
  apply (hasDerivAt_kernel_poly1 x).congr_of_eventuallyEq
  filter_upwards [Ioo_mem_nhds hx.1 hx.2] with y hy
  exact evaluate_single_piece1 (le_of_lt hy.1) hy.2

lemma hasDerivAt_evaluate_single2 {x : ℝ}
    (hx : x ∈ Set.Ioo (-(1 / 2) : ℝ) (1 / 2)) :
    HasDerivAt BezierTensorBasis.evaluate_single (-4 * x) x := by
  apply (hasDerivAt_kernel_poly2 x).congr_of_eventuallyEq
  filter_upwards [Ioo_mem_nhds hx.1 hx.2] with y hy
  exact evaluate_single_piece2 (le_of_lt hy.1) hy.2

lemma hasDerivAt_evaluate_single3 {x : ℝ}
    (hx : x ∈ Set.Ioo ((1 / 2) : ℝ) (3 / 2)) :
    HasDerivAt BezierTensorBasis.evaluate_single (2 * x - 3) x := by
  apply (hasDerivAt_kernel_poly3 x).congr_of_eventuallyEq
  filter_upwards [Ioo_mem_nhds hx.1 hx.2] with y hy
  exact evaluate_single_piece3 (le_of_lt hy.1) hy.2

end DerivLemmas

/-- Claim C5: evaluate_derivative_single is the piecewise linear function 2x+3
on [-1.5,-0.5), -4x on [-0.5,0.5), 2x-3 on [0.5,1.5) and 0 elsewhere, with the
same half-open partition as evaluate_single; and on each open interval its
value is the analytic derivative of the corresponding piece of
evaluate_single. -/
theorem evaluate_derivative_single_spec (x : ℝ) :
    BezierTensorBasis.evaluate_derivative_single x =
      (if -(3 / 2) ≤ x ∧ x < -(1 / 2) then 2 * x + 3
       else if -(1 / 2) ≤ x ∧ x < 1 / 2 then -4 * x
       else if 1 / 2 ≤ x ∧ x < 3 / 2 then 2 * x - 3
       else 0)
      ∧ (x ∈ Set.Ioo (-(3 / 2) : ℝ) (-(1 / 2)) →
          HasDerivAt BezierTensorBasis.evaluate_single
            (BezierTensorBasis.evaluate_derivative_single x) x)
      ∧ (x ∈ Set.Ioo (-(1 / 2) : ℝ) (1 / 2) →
          HasDerivAt BezierTensorBasis.evaluate_single
            (BezierTensorBasis.evaluate_derivative_single x) x)
      ∧ (x ∈ Set.Ioo ((1 / 2) : ℝ) (3 / 2) →
          HasDerivAt BezierTensorBasis.evaluate_single
            (BezierTensorBasis.evaluate_derivative_single x) x) := by
  refine ⟨?_, ?_, ?_, ?_⟩
  · rcases lt_or_le x (-(3 / 2)) with h | h1
    · rw [if_neg, if_neg, if_neg]
      · unfold BezierTensorBasis.evaluate_derivative_single
        rw [if_neg, if_neg, if_neg] <;>
          first
            | (rintro ⟨h3, h4⟩; linarith)
            | norm_num
      all_goals (rintro ⟨h3, h4⟩; linarith)
    · rcases lt_or_le x (-(1 / 2)) with h2 | h2
      · rw [evaluate_derivative_single_piece1 h1 h2, if_pos ⟨h1, h2⟩]
      · rcases lt_or_le x (1 / 2) with h3 | h3
        · rw [evaluate_derivative_single_piece2 h2 h3, if_neg,
            if_pos ⟨h2, h3⟩]
          rintro ⟨h4, h5⟩; linarith
        · rcases lt_or_le x (3 / 2) with h4 | h4
          · rw [evaluate_derivative_single_piece3 h3 h4, if_neg, if_neg,
              if_pos ⟨h3, h4⟩] <;> (rintro ⟨h5, h6⟩; linarith)
          · rw [if_neg, if_neg, if_neg]
            · unfold BezierTensorBasis.evaluate_derivative_single
              rw [if_neg, if_neg, if_neg] <;>
                first
                  | (rintro ⟨h3, h4⟩; linarith)
                  | norm_num
            all_goals (rintro ⟨h5, h6⟩; linarith)
  · intro hx
    rw [evaluate_derivative_single_piece1 (le_of_lt hx.1) hx.2]
    exact hasDerivAt_evaluate_single1 hx
  · intro hx
    rw [evaluate_derivative_single_piece2 (le_of_lt hx.1) hx.2]
    exact hasDerivAt_evaluate_single2 hx
  · intro hx
    rw [evaluate_derivative_single_piece3 (le_of_lt hx.1) hx.2]
    exact hasDerivAt_evaluate_single3 hx

/-- Witness for C5 at x = 0: the derivative value -4*0 is attained as an
actual derivative of the kernel. -/
theorem evaluate_derivative_single_spec_witness :
    HasDerivAt BezierTensorBasis.evaluate_single
      (BezierTensorBasis.evaluate_derivative_single (0 : ℝ)) 0 :=
  (evaluate_derivative_single_spec 0).2.2.1 (by constructor <;> norm_num)

/-- Claim C6: evaluate is the product of the three per-axis kernel values, and
each component of evaluate_derivative is the per-axis kernel derivative divided
by the stride, multiplied by the plain kernel values of the other two axes. -/
theorem evaluate_separable (xyz : Vec3 ℚ) (stride : ℤ) (h : stride ≠ 0) :
    BezierTensorBasis.evaluate xyz =
      BezierTensorBasis.evaluate_single xyz.x
        * BezierTensorBasis.evaluate_single xyz.y
        * BezierTensorBasis.evaluate_single xyz.z
    ∧ BezierTensorBasis.evaluate_derivative xyz stride =
      ⟨BezierTensorBasis.evaluate_derivative_single xyz.x / (stride : ℚ)
          * BezierTensorBasis.evaluate_single xyz.y
          * BezierTensorBasis.evaluate_single xyz.z,
        BezierTensorBasis.evaluate_single xyz.x
          * (BezierTensorBasis.evaluate_derivative_single xyz.y / (stride : ℚ))
          * BezierTensorBasis.evaluate_single xyz.z,
        BezierTensorBasis.evaluate_single xyz.x
          * BezierTensorBasis.evaluate_single xyz.y
          * (BezierTensorBasis.evaluate_derivative_single xyz.z / (stride : ℚ))⟩ :=
  ⟨rfl, rfl⟩

/-- Witness for C6 at xyz = (0, 0, 0), stride = 1. -/
theorem evaluate_separable_witness :
    BezierTensorBasis.evaluate (⟨0, 0, 0⟩ : Vec3 ℚ) =
      BezierTensorBasis.evaluate_single (0 : ℚ)
        * BezierTensorBasis.evaluate_single (0 : ℚ)
        * BezierTensorBasis.evaluate_single (0 : ℚ) :=
  (evaluate_separable ⟨0, 0, 0⟩ 1 (by decide)).1

namespace BezierTensorBasis

/-- Rounded per-axis table index of integrate_deriv_deriv_product:
round(rel_pos + mult * 3 / 2 + 0.5), cast to int. -/
def ddIdx (mult : ℕ) (r : ℚ) : ℤ :=
  roundHalfEven (r + (mult : ℚ) * 3 / 2 + 1 / 2)

/-- The per-axis plain factor of integrate_deriv_deriv_product:
shifted self-integral entry times the source stride. -/
def ddPlain (ssi : List ℚ) (s : ℕ) (i : ℤ) : ℚ :=
  ssi.getD i.toNat 0 * (s : ℚ)

/-- The per-axis derivative factor of integrate_deriv_deriv_product:
shifted derivative-integral entry divided by the target stride. -/
def ddDeriv (sdi : List ℚ) (t : ℕ) (i : ℤ) : ℚ :=
  sdi.getD i.toNat 0 / (t : ℚ)

/-- One axis of integrate_deriv_deriv_product: compute the rounded index, the
validity mask against the shifted self-integral row length, clamp, look both
rows up at the clamped index, and zero both factors where the mask is unset. -/
def ddAxis (ssi sdi : List ℚ) (s t mult : ℕ) (r : ℚ) : Option (ℚ × ℚ) :=
  let i := ddIdx mult r
  let ic := clampIdx i ssi.length
  match pyGet ssi ic, pyGet sdi ic with
  | some c, some g =>
      if 0 ≤ i ∧ i < (ssi.length : ℤ) then
        some (c * (s : ℚ), g / (t : ℚ))
      else
        some (0, 0)
  | _, _ => none

/-- integrate_deriv_deriv_product: LHS stiffness integral.  Asserts
source_stride ≤ target_stride, selects the table row at
level = int(log2(target_stride // source_stride)), evaluates the three axes
through ddAxis and combines them with the product-rule expansion. -/
def integrate_deriv_deriv_product (T : IntegralTables) (rel_pos : Vec3 ℚ)
    (source_stride target_stride : ℕ) : Except String ℚ :=
  if source_stride ≤ target_stride then
    let mult := target_stride / source_stride
    let level : ℤ := (Nat.log2 mult : ℤ)
    match pyGet T.SHIFTED_SELF_INTEGRAL level,
        pyGet T.SHIFTED_DERIVATIVE_INTEGRAL level with
    | some ssi, some sdi =>
      match ddAxis ssi sdi source_stride target_stride mult rel_pos.x,
          ddAxis ssi sdi source_stride target_stride mult rel_pos.y,
          ddAxis ssi sdi source_stride target_stride mult rel_pos.z with
      | some px, some py, some pz =>
          Except.ok (px.2 * py.1 * pz.1 + px.1 * py.2 * pz.1
            + px.1 * py.1 * pz.2)
      | _, _, _ => Except.error "IndexError"
    | _, _ => Except.error "IndexError"
  else
    Except.error "AssertionError: Source stride cannot be larger than target stride."

/-- Rounded per-axis index of the forward branch of
integrate_const_deriv_product: round(rel_pos + (3 * mult - 1) / 2). -/
def cdIdxF (mult : ℕ) (r : ℚ) : ℤ :=
  roundHalfEven (r + (3 * (mult : ℚ) - 1) / 2)

/-- Rounded per-axis index of the inverse branch of
integrate_const_deriv_product: round(rel_pos * mult + mult / 2 + 0.5). -/
def cdIdxI (mult : ℕ) (r : ℚ) : ℤ :=
  roundHalfEven (r * (mult : ℚ) + (mult : ℚ) / 2 + 1 / 2)

/-- The per-axis plain factor of integrate_const_deriv_product: a
derivative-partial entry times the (possibly swapped) data stride. -/
def cdPlain (dpi : List ℚ) (ds : ℚ) (i : ℤ) : ℚ :=
  dpi.getD i.toNat 0 * ds

/-- The per-axis derivative factor of integrate_const_deriv_product: a partial
entry times the volume factor i_mult. -/
def cdDeriv (piRow : List ℚ) (im : ℚ) (i : ℤ) : ℚ :=
  piRow.getD i.toNat 0 * im

/-- The branch-dependent parameters of integrate_const_deriv_product: the two
table rows to use, the level, the index map, the stride multiplying the plain
factor (after the swap of the second branch) and the volume factor i_mult. -/
structure CDParams where
  dpiT : Table
  piT : Table
  level : ℤ
  idxFun : ℚ → ℤ
  ds : ℚ
  iMult : ℚ

/-- Branch selection of integrate_const_deriv_product, exactly as in the
source: target_stride ≥ data_stride picks the forward tables with
level = int(log2(target // data)) and i_mult = data / target; otherwise the
inverse tables with level = int(log2(data // target)) - 1, the strides
swapped, and i_mult = 1. -/
def cdParams (T : IntegralTables) (data_stride target_stride : ℕ) : CDParams :=
  if data_stride ≤ target_stride then
    let mult := target_stride / data_stride
    { dpiT := T.DERIVATIVE_PARTIAL_INTEGRAL
      piT := T.PARTIAL_INTEGRAL
      level := (Nat.log2 mult : ℤ)
      idxFun := cdIdxF mult
      ds := (data_stride : ℚ)
      iMult := (data_stride : ℚ) / (target_stride : ℚ) }
  else
    let mult := data_stride / target_stride
    { dpiT := T.INV_DERIVATIVE_PARTIAL_INTEGRAL
      piT := T.INV_PARTIAL_INTEGRAL
      level := (Nat.log2 mult : ℤ) - 1
      idxFun := cdIdxI mult
      ds := (target_stride : ℚ)
      iMult := 1 }

/-- One axis of integrate_const_deriv_product: look both rows up at the raw
rounded index with Python indexing semantics; no mask, no clamp. -/
def cdAxis (dpi piRow : List ℚ) (idx : ℤ) (ds iMult : ℚ) : Option (ℚ × ℚ) :=
  match pyGet dpi idx, pyGet piRow idx with
  | some c, some g => some (c * ds, g * iMult)
  | _, _ => none

/-- integrate_const_deriv_product: RHS integral of a constant field against
the target gradient.  Selects the branch parameters, looks the rows up at the
(possibly negative) rounded indices, and contracts data against the factors. -/
def integrate_const_deriv_product (T : IntegralTables) (data : Vec3 ℚ)
    (rel_pos : Vec3 ℚ) (data_stride target_stride : ℕ) : Except String ℚ :=
  let p := cdParams T data_stride target_stride
  match pyGet p.dpiT p.level, pyGet p.piT p.level with
  | some dpi, some piRow =>
    match cdAxis dpi piRow (p.idxFun rel_pos.x) p.ds p.iMult,
        cdAxis dpi piRow (p.idxFun rel_pos.y) p.ds p.iMult,
        cdAxis dpi piRow (p.idxFun rel_pos.z) p.ds p.iMult with
    | some px, some py, some pz =>
        Except.ok (data.x * px.2 * py.1 * pz.1 + data.y * px.1 * py.2 * pz.1
          + data.z * px.1 * py.1 * pz.2)
    | _, _, _ => Except.error "IndexError"
  | _, _ => Except.error "IndexError"

end BezierTensorBasis

section IndexingLemmas

lemma pyGet_natCast {α : Type} (l : List α) (n : ℕ) :
    pyGet l (n : ℤ) = l.get? n := by
  unfold pyGet
  rw [if_pos (Int.ofNat_nonneg n)]
  norm_num

lemma get?_eq_some_getD (l : List ℚ) (n : ℕ) (h : n < l.length) :
    l.get? n = some (l.getD n 0) := by
  rw [List.getD_eq_getElem?_getD, List.get?_eq_getElem?, List.getElem?_eq_getElem h]
  rfl

lemma pyGet_in_range (l : List ℚ) (i : ℤ) (h0 : 0 ≤ i)
    (h1 : i < (l.length : ℤ)) : pyGet l i = some (l.getD i.toNat 0) := by
  unfold pyGet
  rw [if_pos h0, get?_eq_some_getD]
  omega

lemma pyGet_wrap (l : List ℚ) (i : ℤ) (h0 : -(l.length : ℤ) ≤ i)
    (h1 : i < 0) : pyGet l i = some (l.getD (i + l.length).toNat 0) := by
  unfold pyGet
  rw [if_neg (by omega), if_pos h0, get?_eq_some_getD]
  omega

lemma pyGet_mem_range (l : List ℚ) (i : ℤ) (h0 : -(l.length : ℤ) ≤ i)
    (h1 : i < (l.length : ℤ)) :
    pyGet l i = some (l.getD (pyWrapIdx l.length i) 0) := by
  rcases le_or_lt 0 i with h | h
  · rw [pyGet_in_range l i h h1]
    unfold pyWrapIdx
    rw [if_pos h]
  · rw [pyGet_wrap l i h0 h]
    unfold pyWrapIdx
    rw [if_neg (by omega)]

lemma pyGet_none {α : Type} (l : List α) (i : ℤ)
    (h : i < -(l.length : ℤ) ∨ (l.length : ℤ) ≤ i) : pyGet l i = none := by
  unfold pyGet
  rcases h with h | h
  · rw [if_neg (by omega), if_neg (by omega)]
  · rw [if_pos (by omega), List.get?_eq_getElem?, List.getElem?_eq_none]
    omega

lemma clampIdx_in_range (i : ℤ) (n : ℕ) (h0 : 0 ≤ i) (h1 : i < (n : ℤ)) :
    clampIdx i n = i := by
  unfold clampIdx
  omega

lemma clampIdx_mem (i : ℤ) (n : ℕ) (hn : 0 < n) :
    0 ≤ clampIdx i n ∧ clampIdx i n < (n : ℤ) := by
  unfold clampIdx
  omega

end IndexingLemmas

namespace BezierTensorBasis

/-- The pair of factors an axis of integrate_deriv_deriv_product contributes:
the looked-up plain and derivative terms when the rounded index is in range,
and (0, 0) when the mask zeroes the axis out. -/
def ddMasked (ssi sdi : List ℚ) (s t mult : ℕ) (r : ℚ) : ℚ × ℚ :=
  if 0 ≤ ddIdx mult r ∧ ddIdx mult r < (ssi.length : ℤ) then
    (ddPlain ssi s (ddIdx mult r), ddDeriv sdi t (ddIdx mult r))
  else (0, 0)

lemma ddAxis_eq (ssi sdi : List ℚ) (s t mult : ℕ) (r : ℚ)
    (hne : ssi ≠ []) (hlen : sdi.length = ssi.length) :
    ddAxis ssi sdi s t mult r = some (ddMasked ssi sdi s t mult r) := by
  have hn : 0 < ssi.length := List.length_pos.mpr hne
  have hcl := clampIdx_mem (ddIdx mult r) ssi.length hn
  unfold ddAxis ddMasked
  dsimp only
  rw [pyGet_in_range ssi _ hcl.1 hcl.2,
    pyGet_in_range sdi _ hcl.1 (by rw [hlen]; exact hcl.2)]
  by_cases h : 0 ≤ ddIdx mult r ∧ ddIdx mult r < (ssi.length : ℤ)
  · rw [clampIdx_in_range _ _ h.1 h.2]
    simp only [if_pos h]
    rfl
  · simp only [if_neg h]

/-- Unfolding of integrate_deriv_deriv_product under the stride precondition,
when the table level exists and the two rows are parallel and nonempty: the
result is the product-rule combination of the three per-axis masked pairs. -/
lemma integrate_dd_eq (T : IntegralTables) (rel : Vec3 ℚ) (s t : ℕ)
    (hst : s ≤ t) (ssi sdi : List ℚ)
    (hssi : T.SHIFTED_SELF_INTEGRAL.get? (Nat.log2 (t / s)) = some ssi)
    (hsdi : T.SHIFTED_DERIVATIVE_INTEGRAL.get? (Nat.log2 (t / s)) = some sdi)
    (hlen : sdi.length = ssi.length) (hne : ssi ≠ []) :
    integrate_deriv_deriv_product T rel s t =
      Except.ok
        ((ddMasked ssi sdi s t (t / s) rel.x).2
            * (ddMasked ssi sdi s t (t / s) rel.y).1
            * (ddMasked ssi sdi s t (t / s) rel.z).1
          + (ddMasked ssi sdi s t (t / s) rel.x).1
            * (ddMasked ssi sdi s t (t / s) rel.y).2
            * (ddMasked ssi sdi s t (t / s) rel.z).1
          + (ddMasked ssi sdi s t (t / s) rel.x).1
            * (ddMasked ssi sdi s t (t / s) rel.y).1
            * (ddMasked ssi sdi s t (t / s) rel.z).2) := by
  unfold integrate_deriv_deriv_product
  rw [if_pos hst]
  simp only [pyGet_natCast, hssi, hsdi,
    ddAxis_eq ssi sdi s t (t / s) rel.x hne hlen,
    ddAxis_eq ssi sdi s t (t / s) rel.y hne hlen,
    ddAxis_eq ssi sdi s t (t / s) rel.z hne hlen]

end BezierTensorBasis

/-- An index Python accepts on a sequence of length n: the half-open interval
[-n, n). -/
abbrev inPyRange (n : ℕ) (i : ℤ) : Prop :=
  -(n : ℤ) ≤ i ∧ i < (n : ℤ)

lemma pyWrapIdx_nonneg (n : ℕ) (i : ℤ) (h : 0 ≤ i) :
    pyWrapIdx n i = i.toNat := by
  unfold pyWrapIdx
  rw [if_pos h]

namespace BezierTensorBasis

lemma cdParams_forward (T : IntegralTables) (d t : ℕ) (h : d ≤ t) :
    cdParams T d t =
      { dpiT := T.DERIVATIVE_PARTIAL_INTEGRAL
        piT := T.PARTIAL_INTEGRAL
        level := (Nat.log2 (t / d) : ℤ)
        idxFun := cdIdxF (t / d)
        ds := (d : ℚ)
        iMult := (d : ℚ) / (t : ℚ) } := by
  unfold cdParams
  rw [if_pos h]

lemma cdParams_inverse (T : IntegralTables) (d t : ℕ) (h : t < d) :
    cdParams T d t =
      { dpiT := T.INV_DERIVATIVE_PARTIAL_INTEGRAL
        piT := T.INV_PARTIAL_INTEGRAL
        level := (Nat.log2 (d / t) : ℤ) - 1
        idxFun := cdIdxI (d / t)
        ds := (t : ℚ)
        iMult := 1 } := by
  unfold cdParams
  rw [if_neg (by omega)]

lemma cdAxis_eq (dpi piRow : List ℚ) (i : ℤ) (ds im : ℚ)
    (hplen : piRow.length = dpi.length) (h : inPyRange dpi.length i) :
    cdAxis dpi piRow i ds im =
      some (dpi.getD (pyWrapIdx dpi.length i) 0 * ds,
        piRow.getD (pyWrapIdx piRow.length i) 0 * im) := by
  unfold cdAxis
  rw [pyGet_mem_range dpi i h.1 h.2,
    pyGet_mem_range piRow i (by rw [hplen]; exact h.1) (by rw [hplen]; exact h.2)]

lemma cdAxis_none (dpi piRow : List ℚ) (i : ℤ) (ds im : ℚ)
    (h : ¬ inPyRange dpi.length i) :
    cdAxis dpi piRow i ds im = none := by
  unfold cdAxis
  rw [pyGet_none dpi i (by unfold inPyRange at h; omega)]

/-- Unfolding of integrate_const_deriv_product when the two rows exist, are
parallel in length, and every per-axis index is Python-acceptable: the result
contracts data against the wrapped lookups. -/
lemma integrate_cd_ok (T : IntegralTables) (data rel : Vec3 ℚ) (d t : ℕ)
    (dpi piRow : List ℚ)
    (hdpi : pyGet (cdParams T d t).dpiT (cdParams T d t).level = some dpi)
    (hpi : pyGet (cdParams T d t).piT (cdParams T d t).level = some piRow)
    (hplen : piRow.length = dpi.length)
    (hx : inPyRange dpi.length ((cdParams T d t).idxFun rel.x))
    (hy : inPyRange dpi.length ((cdParams T d t).idxFun rel.y))
    (hz : inPyRange dpi.length ((cdParams T d t).idxFun rel.z)) :
    integrate_const_deriv_product T data rel d t =
      Except.ok
        (data.x
            * (piRow.getD (pyWrapIdx piRow.length
                ((cdParams T d t).idxFun rel.x)) 0 * (cdParams T d t).iMult)
            * (dpi.getD (pyWrapIdx dpi.length
                ((cdParams T d t).idxFun rel.y)) 0 * (cdParams T d t).ds)
            * (dpi.getD (pyWrapIdx dpi.length
                ((cdParams T d t).idxFun rel.z)) 0 * (cdParams T d t).ds)
          + data.y
            * (dpi.getD (pyWrapIdx dpi.length
                ((cdParams T d t).idxFun rel.x)) 0 * (cdParams T d t).ds)
            * (piRow.getD (pyWrapIdx piRow.length
                ((cdParams T d t).idxFun rel.y)) 0 * (cdParams T d t).iMult)
            * (dpi.getD (pyWrapIdx dpi.length
                ((cdParams T d t).idxFun rel.z)) 0 * (cdParams T d t).ds)
          + data.z
            * (dpi.getD (pyWrapIdx dpi.length
                ((cdParams T d t).idxFun rel.x)) 0 * (cdParams T d t).ds)
            * (dpi.getD (pyWrapIdx dpi.length
                ((cdParams T d t).idxFun rel.y)) 0 * (cdParams T d t).ds)
            * (piRow.getD (pyWrapIdx piRow.length
                ((cdParams T d t).idxFun rel.z)) 0 * (cdParams T d t).iMult)) := by
  unfold integrate_const_deriv_product
  simp only [hdpi, hpi, cdAxis_eq dpi piRow _ _ _ hplen hx,
    cdAxis_eq dpi piRow _ _ _ hplen hy, cdAxis_eq dpi piRow _ _ _ hplen hz]

/-- Unfolding of integrate_const_deriv_product when some per-axis index is
outside [-len, len): the lookup raises, the call returns the indexing error. -/
lemma integrate_cd_err (T : IntegralTables) (data rel : Vec3 ℚ) (d t : ℕ)
    (dpi piRow : List ℚ)
    (hdpi : pyGet (cdParams T d t).dpiT (cdParams T d t).level = some dpi)
    (hpi : pyGet (cdParams T d t).piT (cdParams T d t).level = some piRow)
    (hplen : piRow.length = dpi.length)
    (hout : ¬ inPyRange dpi.length ((cdParams T d t).idxFun rel.x)
      ∨ ¬ inPyRange dpi.length ((cdParams T d t).idxFun rel.y)
      ∨ ¬ inPyRange dpi.length ((cdParams T d t).idxFun rel.z)) :
    integrate_const_deriv_product T data rel d t =
      Except.error "IndexError" := by
  unfold integrate_const_deriv_product
  by_cases hx : inPyRange dpi.length ((cdParams T d t).idxFun rel.x)
  · by_cases hy : inPyRange dpi.length ((cdParams T d t).idxFun rel.y)
    · have hz : ¬ inPyRange dpi.length ((cdParams T d t).idxFun rel.z) := by
        tauto
      simp only [hdpi, hpi, cdAxis_eq dpi piRow _ _ _ hplen hx,
        cdAxis_eq dpi piRow _ _ _ hplen hy, cdAxis_none dpi piRow _ _ _ hz]
    · simp only [hdpi, hpi, cdAxis_eq dpi piRow _ _ _ hplen hx,
        cdAxis_none dpi piRow _ _ _ hy]
  · simp only [hdpi, hpi, cdAxis_none dpi piRow _ _ _ hx]

end BezierTensorBasis

section PowerLemmas

lemma pow_div_pow_two (a b : ℕ) (hab : a ≤ b) :
    (2 : ℕ) ^ b / 2 ^ a = 2 ^ (b - a) := by
  rw [Nat.pow_div hab]
  norm_num

lemma log2_pow_two (k : ℕ) : Nat.log2 (2 ^ k) = k := by
  rw [Nat.log2_eq_log_two, Nat.log_pow Nat.one_lt_two]

end PowerLemmas

/-- Claim C1: for power-of-two strides 2^a ≤ 2^b, when the shifted tables have
a row at level b - a of parallel lengths and the rounded index
round(rel + mult * 1.5 + 0.5) is in range on all three axes, the result is the
product-rule combination: on each axis the plain term is the shifted
self-integral entry times the source stride and the derivative term is the
shifted derivative-integral entry divided by the target stride. -/
theorem integrate_deriv_deriv_in_range (T : IntegralTables) (rel : Vec3 ℚ)
    (a b : ℕ) (hab : a ≤ b) (ssi sdi : List ℚ)
    (hssi : T.SHIFTED_SELF_INTEGRAL.get? (b - a) = some ssi)
    (hsdi : T.SHIFTED_DERIVATIVE_INTEGRAL.get? (b - a) = some sdi)
    (hlen : sdi.length = ssi.length)
    (hx : 0 ≤ BezierTensorBasis.ddIdx (2 ^ (b - a)) rel.x
      ∧ BezierTensorBasis.ddIdx (2 ^ (b - a)) rel.x < (ssi.length : ℤ))
    (hy : 0 ≤ BezierTensorBasis.ddIdx (2 ^ (b - a)) rel.y
      ∧ BezierTensorBasis.ddIdx (2 ^ (b - a)) rel.y < (ssi.length : ℤ))
    (hz : 0 ≤ BezierTensorBasis.ddIdx (2 ^ (b - a)) rel.z
      ∧ BezierTensorBasis.ddIdx (2 ^ (b - a)) rel.z < (ssi.length : ℤ)) :
    BezierTensorBasis.integrate_deriv_deriv_product T rel (2 ^ a) (2 ^ b) =
      Except.ok
        (BezierTensorBasis.ddDeriv sdi (2 ^ b)
              (BezierTensorBasis.ddIdx (2 ^ (b - a)) rel.x)
            * BezierTensorBasis.ddPlain ssi (2 ^ a)
              (BezierTensorBasis.ddIdx (2 ^ (b - a)) rel.y)
            * BezierTensorBasis.ddPlain ssi (2 ^ a)
              (BezierTensorBasis.ddIdx (2 ^ (b - a)) rel.z)
          + BezierTensorBasis.ddPlain ssi (2 ^ a)
              (BezierTensorBasis.ddIdx (2 ^ (b - a)) rel.x)
            * BezierTensorBasis.ddDeriv sdi (2 ^ b)
              (BezierTensorBasis.ddIdx (2 ^ (b - a)) rel.y)
            * BezierTensorBasis.ddPlain ssi (2 ^ a)
              (BezierTensorBasis.ddIdx (2 ^ (b - a)) rel.z)
          + BezierTensorBasis.ddPlain ssi (2 ^ a)
              (BezierTensorBasis.ddIdx (2 ^ (b - a)) rel.x)
            * BezierTensorBasis.ddPlain ssi (2 ^ a)
              (BezierTensorBasis.ddIdx (2 ^ (b - a)) rel.y)
            * BezierTensorBasis.ddDeriv sdi (2 ^ b)
              (BezierTensorBasis.ddIdx (2 ^ (b - a)) rel.z)) := by
  have hpow := pow_div_pow_two a b hab
  have hlog : Nat.log2 ((2 : ℕ) ^ b / 2 ^ a) = b - a := by
    rw [hpow, log2_pow_two]
  have hne : ssi ≠ [] := by
    apply List.length_pos.mp
    omega
  have h := BezierTensorBasis.integrate_dd_eq T rel (2 ^ a) (2 ^ b)
    (Nat.pow_le_pow_right (by norm_num) hab) ssi sdi
    (by rw [hlog]; exact hssi) (by rw [hlog]; exact hsdi) hlen hne
  rw [hpow] at h
  rw [h]
  unfold BezierTensorBasis.ddMasked
  rw [if_pos hx, if_pos hy, if_pos hz]

/-- Claim C3: under the stride precondition, with the table row present,
parallel and nonempty, integrate_deriv_deriv_product never raises a lookup
error, and any query whose rounded index is out of range on at least one axis
returns exactly 0 (the out-of-range axis is clamped for the lookup but both of
its factors are masked to zero). -/
theorem integrate_deriv_deriv_masked (T : IntegralTables) (rel : Vec3 ℚ)
    (s t : ℕ) (hst : s ≤ t) (ssi sdi : List ℚ)
    (hssi : T.SHIFTED_SELF_INTEGRAL.get? (Nat.log2 (t / s)) = some ssi)
    (hsdi : T.SHIFTED_DERIVATIVE_INTEGRAL.get? (Nat.log2 (t / s)) = some sdi)
    (hlen : sdi.length = ssi.length) (hne : ssi ≠ []) :
    (∃ v, BezierTensorBasis.integrate_deriv_deriv_product T rel s t
      = Except.ok v)
    ∧ ((¬ (0 ≤ BezierTensorBasis.ddIdx (t / s) rel.x
          ∧ BezierTensorBasis.ddIdx (t / s) rel.x < (ssi.length : ℤ))
        ∨ ¬ (0 ≤ BezierTensorBasis.ddIdx (t / s) rel.y
          ∧ BezierTensorBasis.ddIdx (t / s) rel.y < (ssi.length : ℤ))
        ∨ ¬ (0 ≤ BezierTensorBasis.ddIdx (t / s) rel.z
          ∧ BezierTensorBasis.ddIdx (t / s) rel.z < (ssi.length : ℤ))) →
      BezierTensorBasis.integrate_deriv_deriv_product T rel s t
        = Except.ok 0) := by
  have h := BezierTensorBasis.integrate_dd_eq T rel s t hst ssi sdi
    hssi hsdi hlen hne
  refine ⟨⟨_, h⟩, fun hout => ?_⟩
  rw [h]
  congr 1
  unfold BezierTensorBasis.ddMasked
  rcases hout with hx | hy | hz
  · rw [if_neg hx]
    simp
  · rw [if_neg hy]
    simp
  · rw [if_neg hz]
    simp

/-- Claim C7: calling integrate_deriv_deriv_product with
source_stride > target_stride fails on the stride assertion and computes
nothing. -/
theorem integrate_deriv_deriv_assert (T : IntegralTables) (rel : Vec3 ℚ)
    (s t : ℕ) (h : t < s) :
    BezierTensorBasis.integrate_deriv_deriv_product T rel s t =
      Except.error
        "AssertionError: Source stride cannot be larger than target stride." := by
  unfold BezierTensorBasis.integrate_deriv_deriv_product
  rw [if_neg (by omega)]

/-- A concrete instance of the 8 tables, used to evaluate the model on closed
inputs (the shipped pickle is data, not source, so any well-formed instance
serves for witnesses and counterexamples). -/
def sampleTables : IntegralTables where
  PARTIAL_INTEGRAL := [[1, 2, 3, 4, 5], [1, 2, 3, 4, 5, 6, 7, 8]]
  DERIVATIVE_PARTIAL_INTEGRAL := [[2, 4, 6, 8, 10], [2, 4, 6, 8, 10, 12, 14, 16]]
  INV_PARTIAL_INTEGRAL := [[1, 2, 3, 4, 5, 6], [2, 3, 4, 5, 6, 7]]
  INV_DERIVATIVE_PARTIAL_INTEGRAL := [[3, 4, 5, 6, 7, 8], [4, 5, 6, 7, 8, 9]]
  SHIFTED_SELF_INTEGRAL := [[1, 2, 3, 4, 5], [1, 2, 3, 4, 5, 6, 7]]
  SHIFTED_DERIVATIVE_INTEGRAL := [[10, 20, 30, 40, 50], [10, 20, 30, 40, 50, 60, 70]]
  SHIFTED_SELF_DERIV_INTEGRAL := [[1], [1]]
  INV_SHIFTED_SELF_DERIV_INTEGRAL := [[1], [1]]

/-- Counterexample to claim C8: with source_stride = 1, target_stride = 3 the
stride ratio 3 is not a power of two, yet the call does not fail: the level
silently truncates to int(log2 3) = 1 and a value is computed. -/
theorem integrate_deriv_deriv_nonpow_cex :
    BezierTensorBasis.integrate_deriv_deriv_product sampleTables
      ⟨0, 0, 0⟩ 1 3 = Except.ok 2160 := by
  have hlog : Nat.log2 (3 / 1) = 1 := by norm_num [Nat.log2]
  have h := BezierTensorBasis.integrate_dd_eq sampleTables ⟨0, 0, 0⟩ 1 3
    (by norm_num) [1, 2, 3, 4, 5, 6, 7] [10, 20, 30, 40, 50, 60, 70]
    (by rw [hlog]; rfl) (by rw [hlog]; rfl) rfl (by simp)
  refine h.trans (congrArg Except.ok ?_)
  norm_num [BezierTensorBasis.ddMasked, BezierTensorBasis.ddIdx,
    BezierTensorBasis.ddPlain, BezierTensorBasis.ddDeriv, roundHalfEven]
  simp only [show Int.toNat 5 = 5 from rfl]
  norm_num

/-- Claim C8 as amended: a non-power-of-two stride ratio is not rejected;
whenever the (truncated) level row exists, is parallel and nonempty, the call
returns a computed value rather than an InvalidArgument error. -/
theorem integrate_deriv_deriv_no_pow_check (T : IntegralTables)
    (rel : Vec3 ℚ) (s t : ℕ) (hst : s ≤ t) (ssi sdi : List ℚ)
    (hssi : T.SHIFTED_SELF_INTEGRAL.get? (Nat.log2 (t / s)) = some ssi)
    (hsdi : T.SHIFTED_DERIVATIVE_INTEGRAL.get? (Nat.log2 (t / s)) = some sdi)
    (hlen : sdi.length = ssi.length) (hne : ssi ≠ []) :
    ∃ v, BezierTensorBasis.integrate_deriv_deriv_product T rel s t
      = Except.ok v :=
  ⟨_, BezierTensorBasis.integrate_dd_eq T rel s t hst ssi sdi hssi hsdi
    hlen hne⟩

/-- Witness for C1: strides 1 and 1, rel_pos 0; the center index is 2 and the
result is 30*3*3 + 3*30*3 + 3*3*30 = 810 on the sample tables. -/
theorem integrate_deriv_deriv_in_range_witness :
    BezierTensorBasis.integrate_deriv_deriv_product sampleTables
      ⟨0, 0, 0⟩ (2 ^ 0) (2 ^ 0) = Except.ok 810 := by
  have h := integrate_deriv_deriv_in_range sampleTables ⟨0, 0, 0⟩ 0 0
    (le_refl 0) [1, 2, 3, 4, 5] [10, 20, 30, 40, 50] rfl rfl rfl
    (by norm_num [BezierTensorBasis.ddIdx, roundHalfEven])
    (by norm_num [BezierTensorBasis.ddIdx, roundHalfEven])
    (by norm_num [BezierTensorBasis.ddIdx, roundHalfEven])
  refine h.trans (congrArg Except.ok ?_)
  norm_num [BezierTensorBasis.ddIdx, BezierTensorBasis.ddPlain,
    BezierTensorBasis.ddDeriv, roundHalfEven]
  simp only [show Int.toNat 2 = 2 from rfl]
  norm_num

/-- Witness for C3: rel_pos (100, 0, 0) is far outside the support on the x
axis, and the query returns exactly 0, with no error. -/
theorem integrate_deriv_deriv_masked_witness :
    BezierTensorBasis.integrate_deriv_deriv_product sampleTables
      ⟨100, 0, 0⟩ 1 1 = Except.ok 0 :=
  (integrate_deriv_deriv_masked sampleTables ⟨100, 0, 0⟩ 1 1 (le_refl 1)
    [1, 2, 3, 4, 5] [10, 20, 30, 40, 50]
    (by norm_num [Nat.log2, sampleTables])
    (by norm_num [Nat.log2, sampleTables]) rfl (by simp)).2
    (Or.inl (by norm_num [BezierTensorBasis.ddIdx, roundHalfEven]))

/-- Witness for C7: source stride 2 against target stride 1 fails the
assertion. -/
theorem integrate_deriv_deriv_assert_witness :
    BezierTensorBasis.integrate_deriv_deriv_product sampleTables
      ⟨0, 0, 0⟩ 2 1 =
      Except.error
        "AssertionError: Source stride cannot be larger than target stride." :=
  integrate_deriv_deriv_assert sampleTables ⟨0, 0, 0⟩ 2 1 (by norm_num)

/-- Witness for the amended C8: with strides 1 and 3 (ratio not a power of
two) a value is still computed on the sample tables. -/
theorem integrate_deriv_deriv_no_pow_check_witness :
    ∃ v, BezierTensorBasis.integrate_deriv_deriv_product sampleTables
      ⟨0, 0, 0⟩ 1 3 = Except.ok v :=
  integrate_deriv_deriv_no_pow_check sampleTables ⟨0, 0, 0⟩ 1 3
    (by norm_num) [1, 2, 3, 4, 5, 6, 7] [10, 20, 30, 40, 50, 60, 70]
    (by norm_num [Nat.log2, sampleTables])
    (by norm_num [Nat.log2, sampleTables]) rfl (by simp)

namespace BezierTensorBasis

lemma integrate_cd_ok_p (T : IntegralTables) (data rel : Vec3 ℚ) (d t : ℕ)
    (p : CDParams) (hp : cdParams T d t = p) (dpi piRow : List ℚ)
    (hdpi : pyGet p.dpiT p.level = some dpi)
    (hpi : pyGet p.piT p.level = some piRow)
    (hplen : piRow.length = dpi.length)
    (hx : inPyRange dpi.length (p.idxFun rel.x))
    (hy : inPyRange dpi.length (p.idxFun rel.y))
    (hz : inPyRange dpi.length (p.idxFun rel.z)) :
    integrate_const_deriv_product T data rel d t =
      Except.ok
        (data.x * (piRow.getD (pyWrapIdx piRow.length (p.idxFun rel.x)) 0 * p.iMult)
            * (dpi.getD (pyWrapIdx dpi.length (p.idxFun rel.y)) 0 * p.ds)
            * (dpi.getD (pyWrapIdx dpi.length (p.idxFun rel.z)) 0 * p.ds)
          + data.y * (dpi.getD (pyWrapIdx dpi.length (p.idxFun rel.x)) 0 * p.ds)
            * (piRow.getD (pyWrapIdx piRow.length (p.idxFun rel.y)) 0 * p.iMult)
            * (dpi.getD (pyWrapIdx dpi.length (p.idxFun rel.z)) 0 * p.ds)
          + data.z * (dpi.getD (pyWrapIdx dpi.length (p.idxFun rel.x)) 0 * p.ds)
            * (dpi.getD (pyWrapIdx dpi.length (p.idxFun rel.y)) 0 * p.ds)
            * (piRow.getD (pyWrapIdx piRow.length (p.idxFun rel.z)) 0 * p.iMult)) := by
  subst hp
  exact integrate_cd_ok T data rel d t dpi piRow hdpi hpi hplen hx hy hz

lemma integrate_cd_err_p (T : IntegralTables) (data rel : Vec3 ℚ) (d t : ℕ)
    (p : CDParams) (hp : cdParams T d t = p) (dpi piRow : List ℚ)
    (hdpi : pyGet p.dpiT p.level = some dpi)
    (hpi : pyGet p.piT p.level = some piRow)
    (hplen : piRow.length = dpi.length)
    (hout : ¬ inPyRange dpi.length (p.idxFun rel.x)
      ∨ ¬ inPyRange dpi.length (p.idxFun rel.y)
      ∨ ¬ inPyRange dpi.length (p.idxFun rel.z)) :
    integrate_const_deriv_product T data rel d t =
      Except.error "IndexError" := by
  subst hp
  exact integrate_cd_err T data rel d t dpi piRow hdpi hpi hplen hout

end BezierTensorBasis

/-- Claim C2: both branches of integrate_const_deriv_product for power-of-two
strides, with all computed indices in range.  Forward (target ≥ data): level
b - a, index round(rel + (3 mult - 1)/2), plain term from the forward
derivative-partial table times the data stride, derivative term from the
forward partial table times data/target.  Inverse (target < data): level
a - b - 1, index round(rel mult + mult/2 + 0.5), the inverse tables, the
data-stride role taken by the target stride, and i_mult = 1.  The result
contracts data against the derivative term of each axis times the plain terms
of the other two. -/
theorem integrate_const_deriv_branches (T : IntegralTables)
    (data rel : Vec3 ℚ) (a b : ℕ) :
    (a ≤ b → ∀ dpi piRow : List ℚ,
      T.DERIVATIVE_PARTIAL_INTEGRAL.get? (b - a) = some dpi →
      T.PARTIAL_INTEGRAL.get? (b - a) = some piRow →
      piRow.length = dpi.length →
      (0 ≤ BezierTensorBasis.cdIdxF (2 ^ (b - a)) rel.x
        ∧ BezierTensorBasis.cdIdxF (2 ^ (b - a)) rel.x < (dpi.length : ℤ)) →
      (0 ≤ BezierTensorBasis.cdIdxF (2 ^ (b - a)) rel.y
        ∧ BezierTensorBasis.cdIdxF (2 ^ (b - a)) rel.y < (dpi.length : ℤ)) →
      (0 ≤ BezierTensorBasis.cdIdxF (2 ^ (b - a)) rel.z
        ∧ BezierTensorBasis.cdIdxF (2 ^ (b - a)) rel.z < (dpi.length : ℤ)) →
      BezierTensorBasis.integrate_const_deriv_product T data rel
          (2 ^ a) (2 ^ b) =
        Except.ok
          (data.x
              * BezierTensorBasis.cdDeriv piRow (((2 ^ a : ℕ) : ℚ) / ((2 ^ b : ℕ) : ℚ))
                (BezierTensorBasis.cdIdxF (2 ^ (b - a)) rel.x)
              * BezierTensorBasis.cdPlain dpi ((2 ^ a : ℕ) : ℚ)
                (BezierTensorBasis.cdIdxF (2 ^ (b - a)) rel.y)
              * BezierTensorBasis.cdPlain dpi ((2 ^ a : ℕ) : ℚ)
                (BezierTensorBasis.cdIdxF (2 ^ (b - a)) rel.z)
            + data.y
              * BezierTensorBasis.cdPlain dpi ((2 ^ a : ℕ) : ℚ)
                (BezierTensorBasis.cdIdxF (2 ^ (b - a)) rel.x)
              * BezierTensorBasis.cdDeriv piRow (((2 ^ a : ℕ) : ℚ) / ((2 ^ b : ℕ) : ℚ))
                (BezierTensorBasis.cdIdxF (2 ^ (b - a)) rel.y)
              * BezierTensorBasis.cdPlain dpi ((2 ^ a : ℕ) : ℚ)
                (BezierTensorBasis.cdIdxF (2 ^ (b - a)) rel.z)
            + data.z
              * BezierTensorBasis.cdPlain dpi ((2 ^ a : ℕ) : ℚ)
                (BezierTensorBasis.cdIdxF (2 ^ (b - a)) rel.x)
              * BezierTensorBasis.cdPlain dpi ((2 ^ a : ℕ) : ℚ)
                (BezierTensorBasis.cdIdxF (2 ^ (b - a)) rel.y)
              * BezierTensorBasis.cdDeriv piRow (((2 ^ a : ℕ) : ℚ) / ((2 ^ b : ℕ) : ℚ))
                (BezierTensorBasis.cdIdxF (2 ^ (b - a)) rel.z)))
    ∧ (b < a → ∀ dpi piRow : List ℚ,
      T.INV_DERIVATIVE_PARTIAL_INTEGRAL.get? (a - b - 1) = some dpi →
      T.INV_PARTIAL_INTEGRAL.get? (a - b - 1) = some piRow →
      piRow.length = dpi.length →
      (0 ≤ BezierTensorBasis.cdIdxI (2 ^ (a - b)) rel.x
        ∧ BezierTensorBasis.cdIdxI (2 ^ (a - b)) rel.x < (dpi.length : ℤ)) →
      (0 ≤ BezierTensorBasis.cdIdxI (2 ^ (a - b)) rel.y
        ∧ BezierTensorBasis.cdIdxI (2 ^ (a - b)) rel.y < (dpi.length : ℤ)) →
      (0 ≤ BezierTensorBasis.cdIdxI (2 ^ (a - b)) rel.z
        ∧ BezierTensorBasis.cdIdxI (2 ^ (a - b)) rel.z < (dpi.length : ℤ)) →
      BezierTensorBasis.integrate_const_deriv_product T data rel
          (2 ^ a) (2 ^ b) =
        Except.ok
          (data.x
              * BezierTensorBasis.cdDeriv piRow 1
                (BezierTensorBasis.cdIdxI (2 ^ (a - b)) rel.x)
              * BezierTensorBasis.cdPlain dpi ((2 ^ b : ℕ) : ℚ)
                (BezierTensorBasis.cdIdxI (2 ^ (a - b)) rel.y)
              * BezierTensorBasis.cdPlain dpi ((2 ^ b : ℕ) : ℚ)
                (BezierTensorBasis.cdIdxI (2 ^ (a - b)) rel.z)
            + data.y
              * BezierTensorBasis.cdPlain dpi ((2 ^ b : ℕ) : ℚ)
                (BezierTensorBasis.cdIdxI (2 ^ (a - b)) rel.x)
              * BezierTensorBasis.cdDeriv piRow 1
                (BezierTensorBasis.cdIdxI (2 ^ (a - b)) rel.y)
              * BezierTensorBasis.cdPlain dpi ((2 ^ b : ℕ) : ℚ)
                (BezierTensorBasis.cdIdxI (2 ^ (a - b)) rel.z)
            + data.z
              * BezierTensorBasis.cdPlain dpi ((2 ^ b : ℕ) : ℚ)
                (BezierTensorBasis.cdIdxI (2 ^ (a - b)) rel.x)
              * BezierTensorBasis.cdPlain dpi ((2 ^ b : ℕ) : ℚ)
                (BezierTensorBasis.cdIdxI (2 ^ (a - b)) rel.y)
              * BezierTensorBasis.cdDeriv piRow 1
                (BezierTensorBasis.cdIdxI (2 ^ (a - b)) rel.z))) := by
  constructor
  · intro hab dpi piRow hdpi hpi hplen hx hy hz
    have hps : (2 : ℕ) ^ a ≤ 2 ^ b := Nat.pow_le_pow_right (by norm_num) hab
    have hp := BezierTensorBasis.cdParams_forward T (2 ^ a) (2 ^ b) hps
    rw [pow_div_pow_two a b hab, log2_pow_two] at hp
    have h := BezierTensorBasis.integrate_cd_ok_p T data rel (2 ^ a) (2 ^ b)
      _ hp dpi piRow ((pyGet_natCast _ _).trans hdpi)
      ((pyGet_natCast _ _).trans hpi) hplen
      (show inPyRange dpi.length
        (BezierTensorBasis.cdIdxF (2 ^ (b - a)) rel.x) from ⟨by omega, hx.2⟩)
      (show inPyRange dpi.length
        (BezierTensorBasis.cdIdxF (2 ^ (b - a)) rel.y) from ⟨by omega, hy.2⟩)
      (show inPyRange dpi.length
        (BezierTensorBasis.cdIdxF (2 ^ (b - a)) rel.z) from ⟨by omega, hz.2⟩)
    rw [h]
    unfold BezierTensorBasis.cdPlain BezierTensorBasis.cdDeriv
    rw [pyWrapIdx_nonneg _ _ hx.1, pyWrapIdx_nonneg _ _ hy.1,
      pyWrapIdx_nonneg _ _ hz.1, pyWrapIdx_nonneg _ _ hx.1,
      pyWrapIdx_nonneg _ _ hy.1, pyWrapIdx_nonneg _ _ hz.1]
  · intro hba dpi piRow hdpi hpi hplen hx hy hz
    have hqs : ¬ ((2 : ℕ) ^ a ≤ 2 ^ b) := by
      have := Nat.pow_lt_pow_right (show 1 < 2 by norm_num) hba
      omega
    have hp := BezierTensorBasis.cdParams_inverse T (2 ^ a) (2 ^ b) (by omega)
    rw [pow_div_pow_two b a (le_of_lt hba), log2_pow_two] at hp
    have hcast : ((a - b : ℕ) : ℤ) - 1 = ((a - b - 1 : ℕ) : ℤ) := by omega
    rw [hcast] at hp
    have h := BezierTensorBasis.integrate_cd_ok_p T data rel (2 ^ a) (2 ^ b)
      _ hp dpi piRow ((pyGet_natCast _ _).trans hdpi)
      ((pyGet_natCast _ _).trans hpi) hplen
      (show inPyRange dpi.length
        (BezierTensorBasis.cdIdxI (2 ^ (a - b)) rel.x) from ⟨by omega, hx.2⟩)
      (show inPyRange dpi.length
        (BezierTensorBasis.cdIdxI (2 ^ (a - b)) rel.y) from ⟨by omega, hy.2⟩)
      (show inPyRange dpi.length
        (BezierTensorBasis.cdIdxI (2 ^ (a - b)) rel.z) from ⟨by omega, hz.2⟩)
    rw [h]
    unfold BezierTensorBasis.cdPlain BezierTensorBasis.cdDeriv
    rw [pyWrapIdx_nonneg _ _ hx.1, pyWrapIdx_nonneg _ _ hy.1,
      pyWrapIdx_nonneg _ _ hz.1, pyWrapIdx_nonneg _ _ hx.1,
      pyWrapIdx_nonneg _ _ hy.1, pyWrapIdx_nonneg _ _ hz.1]

/-- Claim C9: integrate_const_deriv_product applies no validity mask and no
clamping.  With the branch row present and parallel: whenever every per-axis
rounded index lies in the Python-acceptable window [-len, len) the call
succeeds with the entries actually read at the wrapped positions (a negative
index silently reads from the end of the row instead of contributing zero),
and whenever some axis falls outside that window the call fails with an
indexing error instead of returning zero. -/
theorem integrate_const_deriv_unmasked (T : IntegralTables)
    (data rel : Vec3 ℚ) (d t : ℕ) (dpi piRow : List ℚ)
    (hdpi : pyGet (BezierTensorBasis.cdParams T d t).dpiT
      (BezierTensorBasis.cdParams T d t).level = some dpi)
    (hpi : pyGet (BezierTensorBasis.cdParams T d t).piT
      (BezierTensorBasis.cdParams T d t).level = some piRow)
    (hplen : piRow.length = dpi.length) :
    (inPyRange dpi.length
        ((BezierTensorBasis.cdParams T d t).idxFun rel.x) →
      inPyRange dpi.length
        ((BezierTensorBasis.cdParams T d t).idxFun rel.y) →
      inPyRange dpi.length
        ((BezierTensorBasis.cdParams T d t).idxFun rel.z) →
      BezierTensorBasis.integrate_const_deriv_product T data rel d t =
        Except.ok
          (data.x
              * (piRow.getD (pyWrapIdx piRow.length
                  ((BezierTensorBasis.cdParams T d t).idxFun rel.x)) 0
                * (BezierTensorBasis.cdParams T d t).iMult)
              * (dpi.getD (pyWrapIdx dpi.length
                  ((BezierTensorBasis.cdParams T d t).idxFun rel.y)) 0
                * (BezierTensorBasis.cdParams T d t).ds)
              * (dpi.getD (pyWrapIdx dpi.length
                  ((BezierTensorBasis.cdParams T d t).idxFun rel.z)) 0
                * (BezierTensorBasis.cdParams T d t).ds)
            + data.y
              * (dpi.getD (pyWrapIdx dpi.length
                  ((BezierTensorBasis.cdParams T d t).idxFun rel.x)) 0
                * (BezierTensorBasis.cdParams T d t).ds)
              * (piRow.getD (pyWrapIdx piRow.length
                  ((BezierTensorBasis.cdParams T d t).idxFun rel.y)) 0
                * (BezierTensorBasis.cdParams T d t).iMult)
              * (dpi.getD (pyWrapIdx dpi.length
                  ((BezierTensorBasis.cdParams T d t).idxFun rel.z)) 0
                * (BezierTensorBasis.cdParams T d t).ds)
            + data.z
              * (dpi.getD (pyWrapIdx dpi.length
                  ((BezierTensorBasis.cdParams T d t).idxFun rel.x)) 0
                * (BezierTensorBasis.cdParams T d t).ds)
              * (dpi.getD (pyWrapIdx dpi.length
                  ((BezierTensorBasis.cdParams T d t).idxFun rel.y)) 0
                * (BezierTensorBasis.cdParams T d t).ds)
              * (piRow.getD (pyWrapIdx piRow.length
                  ((BezierTensorBasis.cdParams T d t).idxFun rel.z)) 0
                * (BezierTensorBasis.cdParams T d t).iMult)))
    ∧ ((¬ inPyRange dpi.length
          ((BezierTensorBasis.cdParams T d t).idxFun rel.x)
        ∨ ¬ inPyRange dpi.length
          ((BezierTensorBasis.cdParams T d t).idxFun rel.y)
        ∨ ¬ inPyRange dpi.length
          ((BezierTensorBasis.cdParams T d t).idxFun rel.z)) →
      BezierTensorBasis.integrate_const_deriv_product T data rel d t =
        Except.error "IndexError") :=
  ⟨fun hx hy hz => BezierTensorBasis.integrate_cd_ok T data rel d t
      dpi piRow hdpi hpi hplen hx hy hz,
    fun hout => BezierTensorBasis.integrate_cd_err T data rel d t
      dpi piRow hdpi hpi hplen hout⟩

/-- Witness for C2: both branches evaluated on the sample tables at
rel_pos = 0 and data = (1, 1, 1): data stride 1 against target stride 2
(forward branch) gives 162, data stride 2 against target stride 1 (inverse
branch) gives 225. -/
theorem integrate_const_deriv_branches_witness :
    BezierTensorBasis.integrate_const_deriv_product sampleTables
      ⟨1, 1, 1⟩ ⟨0, 0, 0⟩ (2 ^ 0) (2 ^ 1) = Except.ok 162
    ∧ BezierTensorBasis.integrate_const_deriv_product sampleTables
      ⟨1, 1, 1⟩ ⟨0, 0, 0⟩ (2 ^ 1) (2 ^ 0) = Except.ok 225 := by
  constructor
  · have h := (integrate_const_deriv_branches sampleTables
      ⟨1, 1, 1⟩ ⟨0, 0, 0⟩ 0 1).1 (by norm_num)
      [2, 4, 6, 8, 10, 12, 14, 16] [1, 2, 3, 4, 5, 6, 7, 8] rfl rfl rfl
      (by norm_num [BezierTensorBasis.cdIdxF, roundHalfEven])
      (by norm_num [BezierTensorBasis.cdIdxF, roundHalfEven])
      (by norm_num [BezierTensorBasis.cdIdxF, roundHalfEven])
    refine h.trans (congrArg Except.ok ?_)
    norm_num [BezierTensorBasis.cdIdxF, BezierTensorBasis.cdPlain,
      BezierTensorBasis.cdDeriv, roundHalfEven]
    simp only [show Int.toNat 2 = 2 from rfl]
    norm_num
  · have h := (integrate_const_deriv_branches sampleTables
      ⟨1, 1, 1⟩ ⟨0, 0, 0⟩ 1 0).2 (by norm_num)
      [3, 4, 5, 6, 7, 8] [1, 2, 3, 4, 5, 6] rfl rfl rfl
      (by norm_num [BezierTensorBasis.cdIdxI, roundHalfEven])
      (by norm_num [BezierTensorBasis.cdIdxI, roundHalfEven])
      (by norm_num [BezierTensorBasis.cdIdxI, roundHalfEven])
    refine h.trans (congrArg Except.ok ?_)
    norm_num [BezierTensorBasis.cdIdxI, BezierTensorBasis.cdPlain,
      BezierTensorBasis.cdDeriv, roundHalfEven]
    simp only [show Int.toNat 2 = 2 from rfl]
    norm_num

/-- Witness for C9 on the sample tables with data stride = target stride = 1:
rel_pos.x = -3 rounds to the negative index -2, which silently wraps to the
entry 3 places from the end and yields the nonzero value 64; rel_pos.x = -100
rounds below -len and the call fails with the indexing error. -/
theorem integrate_const_deriv_unmasked_witness :
    (BezierTensorBasis.integrate_const_deriv_product sampleTables
        ⟨1, 0, 0⟩ ⟨-3, 0, 0⟩ 1 1 = Except.ok 64 ∧ (64 : ℚ) ≠ 0)
    ∧ BezierTensorBasis.integrate_const_deriv_product sampleTables
        ⟨1, 0, 0⟩ ⟨-100, 0, 0⟩ 1 1 = Except.error "IndexError" := by
  have hp := BezierTensorBasis.cdParams_forward sampleTables 1 1 (le_refl 1)
  have hlog : Nat.log2 (1 / 1) = 0 := by norm_num [Nat.log2]
  rw [hlog] at hp
  refine ⟨⟨?_, by norm_num⟩, ?_⟩
  · have h := (integrate_const_deriv_unmasked sampleTables
      ⟨1, 0, 0⟩ ⟨-3, 0, 0⟩ 1 1 [2, 4, 6, 8, 10] [1, 2, 3, 4, 5]
      (by rw [hp]; rfl) (by rw [hp]; rfl) rfl).1
      (by rw [hp]; norm_num [inPyRange, BezierTensorBasis.cdIdxF, roundHalfEven])
      (by rw [hp]; norm_num [inPyRange, BezierTensorBasis.cdIdxF, roundHalfEven])
      (by rw [hp]; norm_num [inPyRange, BezierTensorBasis.cdIdxF, roundHalfEven])
    rw [h, hp]
    refine congrArg Except.ok ?_
    norm_num [BezierTensorBasis.cdIdxF, roundHalfEven, pyWrapIdx]
    simp only [show Int.toNat 3 = 3 from rfl, show Int.toNat 1 = 1 from rfl]
    norm_num
  · exact (integrate_const_deriv_unmasked sampleTables
      ⟨1, 0, 0⟩ ⟨-100, 0, 0⟩ 1 1 [2, 4, 6, 8, 10] [1, 2, 3, 4, 5]
      (by rw [hp]; rfl) (by rw [hp]; rfl) rfl).2
      (Or.inl (by rw [hp]; norm_num [inPyRange, BezierTensorBasis.cdIdxF,
        roundHalfEven]))

/-- The exceptions __getitem__ of RandomSafeDataset distinguishes: the
transient ConnectionAbortedError and every other exception (carrying its
message). -/
inductive PyExc where
  | connectionAborted
  | other (msg : String)
deriving DecidableEq, Repr

namespace RandomSafeDataset

/-- __getitem__ of RandomSafeDataset.  get_item abstracts the subclass's
_get_item with the per-call rng folded in; rand abstracts
rng.randint(0, len(self) - 1) as a function of the queried index; fuel bounds
the recursion of the source (which recurses unboundedly — none models
nontermination).  With skip_on_error every exception is caught and the call
retries at a substituted random index; without it only ConnectionAbortedError
is caught that way, and every other exception propagates unchanged. -/
def getitem {α : Type} (get_item : ℤ → Except PyExc α) (rand : ℤ → ℤ)
    (skip_on_error : Bool) : ℕ → ℤ → Option (Except PyExc α)
  | 0, _ => none
  | fuel + 1, data_id =>
    match get_item data_id with
    | Except.ok v => some (Except.ok v)
    | Except.error e =>
      if skip_on_error then
        getitem get_item rand skip_on_error fuel (rand data_id)
      else
        match e with
        | PyExc.connectionAborted =>
            getitem get_item rand skip_on_error fuel (rand data_id)
        | PyExc.other m => some (Except.error (PyExc.other m))

end RandomSafeDataset

/-- A _get_item that raises ConnectionAbortedError everywhere except index 5,
where it returns the sample 99. -/
def getItemSample : ℤ → Except PyExc ℕ := fun i =>
  if i = 5 then Except.ok 99 else Except.error PyExc.connectionAborted

/-- Counterexample to claim C10: with skip_on_error disabled, a
ConnectionAbortedError raised by _get_item at index 0 does not propagate —
the call substitutes the random alternate index 5 and returns that sample. -/
theorem getitem_not_optin_cex :
    getItemSample 0 = Except.error PyExc.connectionAborted
    ∧ RandomSafeDataset.getitem getItemSample (fun _ => 5) false 2 0 =
      some (Except.ok 99) := by
  constructor <;> rfl

/-- Claim C10 as amended: with skip_on_error disabled, every exception other
than ConnectionAbortedError raised by _get_item propagates unchanged to the
caller with no substitution, but ConnectionAbortedError is still caught and
retried at the substituted random index even with the flag disabled. -/
theorem getitem_propagates_non_transient {α : Type}
    (get_item : ℤ → Except PyExc α) (rand : ℤ → ℤ) (fuel : ℕ) (i : ℤ) :
    (∀ m : String, get_item i = Except.error (PyExc.other m) →
      RandomSafeDataset.getitem get_item rand false (fuel + 1) i =
        some (Except.error (PyExc.other m)))
    ∧ (get_item i = Except.error PyExc.connectionAborted →
      RandomSafeDataset.getitem get_item rand false (fuel + 1) i =
        RandomSafeDataset.getitem get_item rand false fuel (rand i)) := by
  constructor
  · intro m h
    conv_lhs => rw [RandomSafeDataset.getitem]
    rw [h]
    rfl
  · intro h
    conv_lhs => rw [RandomSafeDataset.getitem]
    rw [h]
    rfl

/-- Witness for the amended C10: a non-transient exception with message
"boom" propagates unchanged. -/
theorem getitem_propagates_non_transient_witness :
    RandomSafeDataset.getitem
      (fun _ => (Except.error (PyExc.other "boom") : Except PyExc ℕ))
      (fun _ => 5) false 3 0 = some (Except.error (PyExc.other "boom")) :=
  (getitem_propagates_non_transient
    (fun _ => (Except.error (PyExc.other "boom") : Except PyExc ℕ))
    (fun _ => 5) 2 0).1 "boom" rfl
